import Mathlib

/-!
Verification development for the Gauntlet-of-Chaos bot.

The program reads a spreadsheet grid (a list of rows, each row a list of
string cells), parses it into a roster (four team lists plus a leaderboard
list), composes an ordered list of render records for the scoreboard image,
and exposes a handful of chat commands (update, ping, roll, round, answer,
showsubmitted, showanswers).

Two near-duplicate implementations exist in the source: `script.py`
(`parse_sheet_data`, `generate_scoreboard_image`, unrestricted `update`) and
`old.py` (`SheetManager.parse_data`, `generate_scoreboard`, role-restricted
commands, anonymous submissions).  Both row-processing loops are embedded
below, together with the command handlers of `old.py` (effects made explicit)
and the unrestricted `update` of `script.py`.

Strings are modelled at the ASCII level by executable primitives over
character lists: `strip` is `pyStrip`, `lower` is `pyLower`, `split` is
`pySplit`, `str.isdigit` is "non-empty and all characters are decimal
digits", and `int(...)` is `pyInt?`.
-/

namespace Gauntlet

/-- Python `pat in s` substring test on lower-level character lists. -/
def containsSub (pat s : String) : Bool :=
  decide (pat.toList <:+: s.toList)

/-- ASCII model of Python `str.lower`. -/
def pyLower (s : String) : String := ⟨s.toList.map Char.toLower⟩

/-- ASCII model of Python `str.strip` with no argument: remove leading and
trailing whitespace. -/
def pyStrip (s : String) : String :=
  ⟨((s.toList.dropWhile Char.isWhitespace).reverse.dropWhile Char.isWhitespace).reverse⟩

/-- Python `s.split(sep)` for a one-character separator, on character lists:
split at every occurrence, keeping empty pieces. -/
def splitChar (c : Char) : List Char → List (List Char)
  | [] => [[]]
  | x :: xs =>
    let r := splitChar c xs
    if x = c then [] :: r
    else
      match r with
      | [] => [[x]]
      | h :: t => (x :: h) :: t

/-- Python `s.split(sep)` on strings. -/
def pySplit (s : String) (c : Char) : List String :=
  (splitChar c s.toList).map (fun l => ⟨l⟩)

/-- Python `str.isdigit`: non-empty and every character a decimal digit. -/
def isdigitB (s : String) : Bool :=
  !s.toList.isEmpty && s.toList.all (fun c => c.isDigit)

/-- Decimal value of a digit string (the value `int` returns when
`str.strip().isdigit()` has been checked first). -/
def digitsVal (s : String) : Nat :=
  s.toList.foldl (fun a c => 10 * a + (c.toNat - 48)) 0

/-- Digit-list parse used by the model of Python `int`: fails unless the
character list is non-empty and all decimal digits. -/
def digitsVal? (l : List Char) : Option Nat :=
  if l ≠ [] ∧ l.all (fun c => c.isDigit) then
    some (l.foldl (fun a c => 10 * a + (c.toNat - 48)) 0)
  else none

/-- Python `int(s)` on text: strip whitespace, optional sign, decimal digits;
`none` models the `ValueError` raised on anything else. -/
def pyInt? (s : String) : Option Int :=
  match (pyStrip s).toList with
  | [] => none
  | c :: cs =>
    if c = '-' then (digitsVal? cs).map (fun n => -(n : Int))
    else if c = '+' then (digitsVal? cs).map (fun n => (n : Int))
    else (digitsVal? (c :: cs)).map (fun n => (n : Int))

/-- A parsed player row: the dict built in the team-pair branches of both
parse loops (`Name`, `Team`, `Roll`, `Chaos coins`, `Status`). -/
structure PlayerRecord where
  name : String
  team : String
  roll : String
  coins : String
  status : String
deriving Repr, DecidableEq

/-- A parsed leaderboard row (`Position`, `Team`, `Combatant`, `Points`);
`Points` is a `Nat` because both parsers produce `int(row[3])` only when the
trimmed cell is all digits, and `0` otherwise. -/
structure LBEntry where
  position : String
  team : String
  combatant : String
  points : Nat
deriving Repr, DecidableEq

/-- The parse result: the `data` dict of both parse loops. -/
structure Roster where
  red_team : List PlayerRecord
  blue_team : List PlayerRecord
  green_team : List PlayerRecord
  yellow_team : List PlayerRecord
  leaderboard : List LBEntry
deriving Repr, DecidableEq

def Roster.empty : Roster := ⟨[], [], [], [], []⟩

/-- The `current_section` variable of the parse loops. -/
inductive SectionTag where
  | redBlue
  | greenYellow
  | board
deriving Repr, DecidableEq

/-- Loop state of the parse: accumulated data plus `current_section`
(`none` is Python's initial `None`). -/
structure ParseState where
  data : Roster
  currentSection : Option SectionTag
deriving Repr, DecidableEq

def ParseState.init : ParseState := ⟨Roster.empty, none⟩

/-- Model of `row[i]` with Python's out-of-range access defaulting to `""` only where
the source guards the access by a length test first. -/
def cell (row : List String) (i : Nat) : String := row.getD i ""

/-- The trimmed, lower-cased first cell (`row[0].strip().lower()`;
`script.py` additionally maps falsy `row[0]` to `""`, which coincides). -/
def firstCell (row : List String) : String := pyLower (pyStrip (cell row 0))

/-- The row is a team-pair or leaderboard section marker. -/
def isMarker (row : List String) : Bool :=
  (containsSub "red" (firstCell row) && containsSub "blue" (firstCell row)) ||
  (containsSub "green" (firstCell row) && containsSub "yellow" (firstCell row)) ||
  containsSub "leaderboard" (firstCell row)

/-- Header test of both loops: first cell contains `team`, `position` or
`name`. -/
def isHeader (row : List String) : Bool :=
  containsSub "team" (firstCell row) || containsSub "position" (firstCell row) ||
  containsSub "name" (firstCell row)

/-- The player dict built by `parse_sheet_data` in a team-pair section
(`script.py` lines 267-273 and 282-288, identical in both sections). -/
def mkPlayer (row : List String) : PlayerRecord :=
  { name := pyStrip (cell row 0)
    team := pyStrip (pyLower (cell row 1))
    roll := if row.length > 2 then pyStrip (cell row 2) else ""
    coins := if row.length > 3 then
        (if pyStrip (cell row 3) ≠ "" then pyStrip (cell row 3) else "0")
      else "0"
    status := if row.length > 4 then
        (if cell row 4 ≠ "" then pyStrip (cell row 4) else "")
      else "" }

/-- The leaderboard dict built by `parse_sheet_data`
(`script.py` lines 296-301). -/
def mkLBEntry (row : List String) : LBEntry :=
  { position := pyStrip (cell row 0)
    team := if row.length > 1 then pyStrip (pyLower (cell row 1)) else ""
    combatant := if row.length > 2 then pyStrip (cell row 2) else ""
    points := if row.length > 3 then
        (if isdigitB (pyStrip (cell row 3)) then digitsVal (pyStrip (cell row 3)) else 0)
      else 0 }

/-- One iteration of the row loop of `parse_sheet_data` (`script.py`
lines 245-301). -/
def parseStep (st : ParseState) (row : List String) : ParseState :=
  if row.isEmpty then st
  else
    let fc := firstCell row
    if containsSub "red" fc && containsSub "blue" fc then
      { st with currentSection := some .redBlue }
    else if containsSub "green" fc && containsSub "yellow" fc then
      { st with currentSection := some .greenYellow }
    else if containsSub "leaderboard" fc then
      { st with currentSection := some .board }
    else if containsSub "team" fc || containsSub "position" fc || containsSub "name" fc then
      st
    else
      match st.currentSection with
      | some .redBlue =>
        if row.length ≥ 3 then
          let team := pyStrip (pyLower (cell row 1))
          let pd := mkPlayer row
          if team = "red" then
            { st with data := { st.data with red_team := st.data.red_team ++ [pd] } }
          else if team = "blue" then
            { st with data := { st.data with blue_team := st.data.blue_team ++ [pd] } }
          else st
        else st
      | some .greenYellow =>
        if row.length ≥ 3 then
          let team := pyStrip (pyLower (cell row 1))
          let pd := mkPlayer row
          if team = "green" then
            { st with data := { st.data with green_team := st.data.green_team ++ [pd] } }
          else if team = "yellow" then
            { st with data := { st.data with yellow_team := st.data.yellow_team ++ [pd] } }
          else st
        else st
      | some .board =>
        if row.length ≥ 4 then
          { st with data := { st.data with leaderboard := st.data.leaderboard ++ [mkLBEntry row] } }
        else st
      | none => st

/-- Function `parse_sheet_data` of `script.py` as a function of the retrieved grid. -/
def parseSheetData (rows : List (List String)) : Roster :=
  (rows.foldl parseStep ParseState.init).data

/-- The four team names (`TEAMS` in `old.py`). -/
def TEAMS : List String := ["red", "blue", "green", "yellow"]

/-- Append a player to the list named `team ++ "_team"`
(`data[f"{team}_team"].append(...)` in `old.py`). -/
def appendTeam (r : Roster) (team : String) (pd : PlayerRecord) : Roster :=
  if team = "red" then { r with red_team := r.red_team ++ [pd] }
  else if team = "blue" then { r with blue_team := r.blue_team ++ [pd] }
  else if team = "green" then { r with green_team := r.green_team ++ [pd] }
  else { r with yellow_team := r.yellow_team ++ [pd] }

/-- One iteration of the row loop of `SheetManager.parse_data` (`old.py`
lines 110-152): any of the four team names is accepted in either team-pair
section, and the row goes to that team's list. -/
def parseStepOld (st : ParseState) (row : List String) : ParseState :=
  if row.isEmpty then st
  else
    let fc := firstCell row
    if containsSub "red" fc && containsSub "blue" fc then
      { st with currentSection := some .redBlue }
    else if containsSub "green" fc && containsSub "yellow" fc then
      { st with currentSection := some .greenYellow }
    else if containsSub "leaderboard" fc then
      { st with currentSection := some .board }
    else if containsSub "team" fc || containsSub "position" fc || containsSub "name" fc then
      st
    else
      match st.currentSection with
      | some .redBlue | some .greenYellow =>
        if row.length ≥ 3 then
          let team := pyStrip (pyLower (cell row 1))
          if team ∈ TEAMS then
            { st with data := appendTeam st.data team (mkPlayer row) }
          else st
        else st
      | some .board =>
        if row.length ≥ 4 then
          { st with data := { st.data with leaderboard := st.data.leaderboard ++ [mkLBEntry row] } }
        else st
      | none => st

/-- Method `SheetManager.parse_data` of `old.py`. -/
def parseDataOld (rows : List (List String)) : Roster :=
  (rows.foldl parseStepOld ParseState.init).data

/-! ## Scoreboard composition (`generate_scoreboard_image` data part) -/

/-- Value stored in the `leaderboard` lookup dict of
`generate_scoreboard_image` (`script.py` lines 126-133): `Points` is already
the `Nat` produced by the parse, so the re-check
`str(Points).isdigit()` there is always true and `int` returns it back. -/
structure LBInfo where
  position : String
  team : String
  points : Nat
deriving Repr, DecidableEq

/-- Lookup in the dict keyed by lower-cased combatant name; a Python dict
comprehension gives the last entry written for a duplicate key
(last-write-wins), which the `foldl` reproduces. -/
def lookupLB (entries : List LBEntry) (key : String) : Option LBInfo :=
  entries.foldl
    (fun acc e =>
      if pyLower e.combatant = key then some ⟨e.position, pyLower e.team, e.points⟩ else acc)
    none

/-- The per-player dict built in the combination loop (`script.py`
lines 139-146). -/
structure RenderRecord where
  name : String
  team : String
  roll : String
  status : String
  points : Nat
  coins : String
deriving Repr, DecidableEq

/-- Points resolution: `leaderboard.get(name.lower(), {}).get('points', 0)`. -/
def resolvePoints (lb : List LBEntry) (name : String) : Nat :=
  ((lookupLB lb (pyLower name)).map LBInfo.points).getD 0

/-- One combined player record (`script.py` lines 139-146). -/
def toRender (lb : List LBEntry) (p : PlayerRecord) : RenderRecord :=
  { name := p.name
    team := pyLower p.team
    roll := p.roll
    status := p.status
    points := resolvePoints lb p.name
    coins := p.coins }

/-- The `all_players` list: the four team lists visited in the fixed order red, blue,
green, yellow (`script.py` lines 136-147). -/
def allPlayers (r : Roster) : List RenderRecord :=
  (r.red_team.map (toRender r.leaderboard)) ++
  (r.blue_team.map (toRender r.leaderboard)) ++
  (r.green_team.map (toRender r.leaderboard)) ++
  (r.yellow_team.map (toRender r.leaderboard))

/-- Stable descending insertion of one record: skip records with strictly
more points, stop at the first record with at most as many (so a record
inserted from further left in the original order lands before every
equal-points record to its right). -/
def insertDesc (x : RenderRecord) : List RenderRecord → List RenderRecord
  | [] => [x]
  | y :: ys => if y.points ≤ x.points then x :: y :: ys else y :: insertDesc x ys

/-- Model of `all_players.sort(key=lambda x: x['points'], reverse=True)`:
Python's sort is stable and descending on the points key, and a stable
descending sort is extensionally unique, so this stable descending insertion
sort produces exactly the same sequence (sortedness, stability and the
permutation property are proved below). -/
def sortPlayers (l : List RenderRecord) : List RenderRecord :=
  l.foldr insertDesc []

/-- Python `enumerate` with 1-based rank over the drawn cards: card `i` displays
position `i+1` (`script.py` lines 153 and 173). -/
def addRanks : Nat → List RenderRecord → List (Nat × RenderRecord)
  | _, [] => []
  | n, x :: xs => (n, x) :: addRanks (n + 1) xs

/-- Fixed maximum of drawn cards (`all_players[:16]`). -/
def MAX_RECORDS : Nat := 16

/-- The composition pipeline of `generate_scoreboard_image`: combine, sort by
points descending, truncate to 16, assign 1-based rank positions. -/
def compose (r : Roster) : List (Nat × RenderRecord) :=
  addRanks 1 ((sortPlayers (allPlayers r)).take MAX_RECORDS)

/-! ## Roll-range parsing (`roll_command`) -/

/-- Constant `DEFAULT_ROLL_RANGE` of `old.py`; `script.py` hard-codes the same
`100, 200` fallback. -/
def DEFAULT_ROLL_RANGE : Int × Int := (100, 200)

/-- Model of `min_roll, max_roll = map(int, roll_range.split('-'))` wrapped in
`try/except` with the default range as fallback: the bounds are taken iff
the split yields exactly two pieces and both parse as `int`. -/
def parseRollRange (s : String) : Int × Int :=
  match (pySplit s '-').map pyInt? with
  | [some a, some b] => (a, b)
  | _ => DEFAULT_ROLL_RANGE

/-! ## Exception-instrumented parse

Every raw subscript and every `int` conversion of the row loop is modelled as
a fallible operation in `Except`, exactly where the Python source performs
it; a `.error` value models a raised exception escaping the loop. -/

/-- Model of `row[i]` raising `IndexError` when out of range. -/
def cellE (row : List String) (i : Nat) : Except String String :=
  if i < row.length then .ok (row.getD i "") else .error "IndexError"

/-- Model of `int(s)` raising `ValueError` on unparseable text. -/
def pyIntE (s : String) : Except String Int :=
  match pyInt? s with
  | some n => .ok n
  | none => .error "ValueError"

/-- One iteration of the `parse_sheet_data` row loop with all fallible
operations explicit. -/
def parseStepE (st : ParseState) (row : List String) : Except String ParseState :=
  if row.isEmpty then .ok st
  else do
    let c0 ← cellE row 0
    let fc := pyLower (pyStrip c0)
    if containsSub "red" fc && containsSub "blue" fc then
      return { st with currentSection := some .redBlue }
    else if containsSub "green" fc && containsSub "yellow" fc then
      return { st with currentSection := some .greenYellow }
    else if containsSub "leaderboard" fc then
      return { st with currentSection := some .board }
    else if containsSub "team" fc || containsSub "position" fc || containsSub "name" fc then
      return st
    else
      match st.currentSection with
      | some .redBlue =>
        if row.length ≥ 3 then do
          let c1 ← cellE row 1
          let team := pyStrip (pyLower c1)
          let nameCell ← cellE row 0
          let rollv ← if row.length > 2 then do
              let c2 ← cellE row 2
              pure (pyStrip c2)
            else pure ""
          let coinsv ← if row.length > 3 then do
              let c3 ← cellE row 3
              pure (if pyStrip c3 ≠ "" then pyStrip c3 else "0")
            else pure "0"
          let statusv ← if row.length > 4 then do
              let c4 ← cellE row 4
              pure (if c4 ≠ "" then pyStrip c4 else "")
            else pure ""
          let pd : PlayerRecord := ⟨pyStrip nameCell, team, rollv, coinsv, statusv⟩
          if team = "red" then
            return { st with data := { st.data with red_team := st.data.red_team ++ [pd] } }
          else if team = "blue" then
            return { st with data := { st.data with blue_team := st.data.blue_team ++ [pd] } }
          else return st
        else return st
      | some .greenYellow =>
        if row.length ≥ 3 then do
          let c1 ← cellE row 1
          let team := pyStrip (pyLower c1)
          let nameCell ← cellE row 0
          let rollv ← if row.length > 2 then do
              let c2 ← cellE row 2
              pure (pyStrip c2)
            else pure ""
          let coinsv ← if row.length > 3 then do
              let c3 ← cellE row 3
              pure (if pyStrip c3 ≠ "" then pyStrip c3 else "0")
            else pure "0"
          let statusv ← if row.length > 4 then do
              let c4 ← cellE row 4
              pure (if c4 ≠ "" then pyStrip c4 else "")
            else pure ""
          let pd : PlayerRecord := ⟨pyStrip nameCell, team, rollv, coinsv, statusv⟩
          if team = "green" then
            return { st with data := { st.data with green_team := st.data.green_team ++ [pd] } }
          else if team = "yellow" then
            return { st with data := { st.data with yellow_team := st.data.yellow_team ++ [pd] } }
          else return st
        else return st
      | some .board =>
        if row.length ≥ 4 then do
          let posCell ← cellE row 0
          let teamv ← if row.length > 1 then do
              let c1 ← cellE row 1
              pure (pyStrip (pyLower c1))
            else pure ""
          let combv ← if row.length > 2 then do
              let c2 ← cellE row 2
              pure (pyStrip c2)
            else pure ""
          let ptsv ← if row.length > 3 then do
              let c3 ← cellE row 3
              if isdigitB (pyStrip c3) then do
                let v ← pyIntE c3
                pure v.toNat
              else pure 0
            else pure (0 : Nat)
          return { st with data :=
            { st.data with leaderboard := st.data.leaderboard ++ [⟨pyStrip posCell, teamv, combv, ptsv⟩] } }
        else return st
      | none => return st

/-- The whole row loop in `Except`. -/
def parseSheetDataE (rows : List (List String)) : Except String Roster :=
  (rows.foldlM parseStepE ParseState.init).map ParseState.data

/-! ## Command handlers

Chat-platform and spreadsheet side effects are made explicit as an ordered
effect list; external lookups (channel/message existence, worksheet
existence, member-name resolution, `random.shuffle`) are supplied by an
environment record.  Each handler maps the invoking user and the bot state
to the successor state and the emitted effects. -/

/-- A side effect performed by a command handler, in emission order. -/
inductive Effect where
  | deferReply (ephemeral : Bool)
  | reply (ephemeral : Bool) (content : String)
  | followup (ephemeral : Bool) (content : String)
  | editMessage (channelId messageId : Nat)
  | postImage (channelId : Nat)
  | configWrite (key value : String)
  | configUpdate (messageId channelId : Nat)
  | switchSheet (n : Int)
deriving Repr, DecidableEq

/-- The invoking chat user. -/
structure User where
  id : Nat
  displayName : String
  roles : List String
deriving Repr, DecidableEq

/-- Role check `has_permission` of `old.py`: the user holds the
"Agent of Chaos" role. -/
def hasPermission (u : User) : Bool :=
  u.roles.contains "Agent of Chaos"

/-- Rejection text sent by every restricted command of `old.py`. -/
def RESTRICTED_MSG : String :=
  "❌ This command is restricted to admins or Agents of Chaos only."

/-- Mutable bot state: target message/channel ids, current round, and the
`ACTIVE_SUBMISSIONS` dict (insertion-ordered association list). -/
structure BotState where
  messageId : Option Nat
  channelId : Option Nat
  currentRound : Int
  submissions : List (Nat × String)
deriving Repr, DecidableEq

/-- Outcome of `channel.fetch_message`: success, `discord.NotFound`, or any
other exception. -/
inductive FetchResult where
  | ok
  | notFound
  | err
deriving Repr, DecidableEq

/-- External world supplied to a handler invocation. -/
structure Env where
  channelExists : Bool
  fetchResult : FetchResult
  worksheetExists : Int → Bool
  newMessageId : Nat
  invokingChannelId : Nat
  resolveName : Nat → String
  shuffle : List (Nat × String) → List (Nat × String)

/-- Python dict assignment `d[k] = v`: overwrite in place if the key exists,
else append (insertion order preserved). -/
def dictInsert (l : List (Nat × String)) (k : Nat) (v : String) : List (Nat × String) :=
  if l.any (fun p => p.1 = k) then l.map (fun p => if p.1 = k then (k, v) else p)
  else l ++ [(k, v)]

/-- Shared tail of `update_stats` in `old.py` (lines 317-325): post a new
message in the invoking channel, remember its ids, persist them, confirm. -/
def createNewOld (env : Env) (s : BotState) : BotState × List Effect :=
  ({ s with messageId := some env.newMessageId, channelId := some env.invokingChannelId },
   [.deferReply true,
    .postImage env.invokingChannelId,
    .configWrite "message_id" (toString env.newMessageId),
    .configWrite "channel_id" (toString env.invokingChannelId),
    .followup true "Created new stats board!"])

/-- Method `update_stats` of `old.py` (lines 297-330): edit the stored
message when it can be fetched, fall through to creating a new one on
`NotFound` or missing configuration, and report a generic failure on any
other fetch exception (caught by the outer handler, state unchanged). -/
def updateStatsOld (env : Env) (s : BotState) : BotState × List Effect :=
  match s.messageId, s.channelId with
  | some mid, some cid =>
    if env.channelExists then
      match env.fetchResult with
      | .ok => (s, [.deferReply true, .editMessage cid mid, .followup true "Stats updated!"])
      | .notFound => createNewOld env s
      | .err => (s, [.deferReply true, .followup true "Failed to update stats. Check logs for details."])
    else createNewOld env s
  | _, _ => createNewOld env s

/-- Command `update` of `old.py` (lines 341-346): permission check first. -/
def updateCommandOld (env : Env) (u : User) (s : BotState) : BotState × List Effect :=
  if !hasPermission u then (s, [.reply true RESTRICTED_MSG])
  else updateStatsOld env s

/-- Command `ping` of `old.py` (lines 348-353): restricted variant. -/
def pingOld (u : User) (s : BotState) : BotState × List Effect :=
  if !hasPermission u then (s, [.reply true RESTRICTED_MSG])
  else (s, [.reply false "Pong! 🏓"])

/-- Command `round` of `old.py` (lines 420-435): switch the active worksheet
and persist the round number, or report the missing worksheet. -/
def roundCommandOld (env : Env) (u : User) (s : BotState) (n : Int) : BotState × List Effect :=
  if !hasPermission u then (s, [.reply true RESTRICTED_MSG])
  else if env.worksheetExists n then
    ({ s with currentRound := n },
     [.deferReply true, .switchSheet n,
      .configWrite "current_round" (toString n),
      .followup true ("Switched to Round " ++ toString n ++ "!")])
  else
    (s, [.deferReply true,
         .followup true ("Worksheet 'Round " ++ toString n ++ "' not found")])

/-- Command `answer` of `old.py` (lines 437-445): store/overwrite the
submission keyed by user id and acknowledge. -/
def anonSubmit (u : User) (msg : String) (s : BotState) : BotState × List Effect :=
  ({ s with submissions := dictInsert s.submissions u.id msg },
   [.reply true "✅ Your message was submitted anonymously!"])

/-- Command `showsubmitted` of `old.py` (lines 447-483). -/
def showSubmittedOld (env : Env) (u : User) (s : BotState) : BotState × List Effect :=
  if !hasPermission u then (s, [.reply true RESTRICTED_MSG])
  else if s.submissions.isEmpty then (s, [.reply true "No submissions yet!"])
  else
    (s, [.reply true
      ("📝 Submitted (" ++ toString s.submissions.length ++ "):\n" ++
       String.intercalate "\n" (s.submissions.map (fun p => "• " ++ env.resolveName p.1)))])

/-- Numbered public lines of `showanswers`: 1-based number and message text,
in shuffled order. -/
def publicPairs (l : List (Nat × String)) : List (Nat × String) :=
  l.enum.map (fun p => (p.1 + 1, p.2.2))

/-- Numbered private author mapping of `showanswers`: 1-based number, author
user id, message text, in the same shuffled order. -/
def adminPairs (l : List (Nat × String)) : List (Nat × Nat × String) :=
  l.enum.map (fun p => (p.1 + 1, p.2.1, p.2.2))

/-- Public message text of `showanswers` (lines 498-501). -/
def publicMsg (l : List (Nat × String)) : String :=
  "🔍 **Anonymous Messages** 🔍\n" ++
  String.intercalate "\n" ((publicPairs l).map (fun p => "`" ++ toString p.1 ++ ".` " ++ p.2))

/-- Private author-mapping text of `showanswers` (lines 503-513). -/
def adminMsg (env : Env) (l : List (Nat × String)) : String :=
  String.intercalate "\n"
    ("📜 **Author Mapping** 📜" ::
     (adminPairs l).map
       (fun t => "`" ++ toString t.1 ++ ".` 👤 " ++ env.resolveName t.2.1 ++ "\n   ✉️ " ++ t.2.2))

/-- Command `showanswers` (`show_anon`, `old.py` lines 485-521): reveal the
shuffled submissions publicly, deliver the author mapping privately, then
clear the store unconditionally. -/
def showAnonOld (env : Env) (u : User) (s : BotState) : BotState × List Effect :=
  if !hasPermission u then (s, [.reply true RESTRICTED_MSG])
  else if s.submissions.isEmpty then (s, [.reply true "❌ No submissions yet!"])
  else
    let shuffled := env.shuffle s.submissions
    ({ s with submissions := [] },
     [.reply false (publicMsg shuffled), .followup true (adminMsg env shuffled)])

/-- Method `update_stats` of `script.py` (lines 315-361), whose fallback
paths differ from `old.py`: on `NotFound` or any other edit error a new
message is posted in the stored channel; when the channel is missing or the
ids are unset, in the invoking channel. -/
def updateStatsScript (env : Env) (s : BotState) : BotState × List Effect :=
  match s.messageId, s.channelId with
  | some mid, some cid =>
    if env.channelExists then
      match env.fetchResult with
      | .ok => (s, [.deferReply true, .editMessage cid mid, .followup true "Stats updated!"])
      | .notFound =>
        ({ s with messageId := some env.newMessageId, channelId := some cid },
         [.deferReply true,
          .followup true "Original message not found, creating new one...",
          .postImage cid, .configUpdate env.newMessageId cid])
      | .err =>
        ({ s with messageId := some env.newMessageId, channelId := some cid },
         [.deferReply true,
          .followup true "Error updating message, creating new one...",
          .postImage cid, .configUpdate env.newMessageId cid])
    else
      ({ s with messageId := some env.newMessageId, channelId := some env.invokingChannelId },
       [.deferReply true,
        .followup true "Channel not found, creating new message...",
        .postImage env.invokingChannelId, .configUpdate env.newMessageId env.invokingChannelId])
  | _, _ =>
    ({ s with messageId := some env.newMessageId, channelId := some env.invokingChannelId },
     [.deferReply true,
      .postImage env.invokingChannelId, .configUpdate env.newMessageId env.invokingChannelId,
      .followup true "Created new stats board!"])

/-- Command `update` of `script.py` (lines 370-372): no permission check at
all — the user argument is ignored and `update_stats` runs directly. -/
def updateCommandScript (env : Env) (_u : User) (s : BotState) : BotState × List Effect :=
  updateStatsScript env s

/-- Command `ping` of `script.py` (lines 374-376): unrestricted variant. -/
def pingScript (_u : User) (s : BotState) : BotState × List Effect :=
  (s, [.reply false "Pong! 🏓"])

/-! ## Concrete instances used by scenario theorems and witnesses -/

/-- The spec's scenario rows, marker split over two cells. -/
def scenarioRowsPair : List (List String) :=
  [["RED TEAM", "BLUE TEAM"], ["Alice", "red", "10-20", "5", ""],
   ["LEADERBOARD"], ["1", "red", "Alice", "30"]]

/-- The scenario rows with both team names in the marker's first cell. -/
def scenarioRowsSingle : List (List String) :=
  [["RED TEAM BLUE TEAM"], ["Alice", "red", "10-20", "5", ""],
   ["LEADERBOARD"], ["1", "red", "Alice", "30"]]

/-- Roster for the case-insensitive lookup scenario: player "ANN" on the red
team, leaderboard combatant "Ann" with 42 points. -/
def rosterAnn : Roster :=
  { red_team := [{ name := "ANN", team := "red", roll := "", coins := "0", status := "" }]
    blue_team := []
    green_team := []
    yellow_team := []
    leaderboard := [{ position := "1", team := "red", combatant := "Ann", points := 42 }] }

/-- A concrete external environment. -/
def envDefault : Env :=
  { channelExists := true
    fetchResult := .ok
    worksheetExists := fun _ => true
    newMessageId := 99
    invokingChannelId := 5
    resolveName := fun _ => "member"
    shuffle := id }

/-- A user without the "Agent of Chaos" role. -/
def noRoleUser : User := { id := 7, displayName := "intruder", roles := [] }

/-- A user holding the "Agent of Chaos" role. -/
def agentUser : User := { id := 8, displayName := "agent", roles := ["Agent of Chaos"] }

/-- Bot state with no stored ids and no submissions. -/
def stateEmpty : BotState := { messageId := none, channelId := none, currentRound := 1, submissions := [] }

/-- Bot state holding the two scenario submissions. -/
def stateTwoSubs : BotState :=
  { messageId := none, channelId := none, currentRound := 1
    submissions := [(1, "hi"), (2, "bye")] }

/-! ## Lemmas about the stable descending sort -/

/-- Sorted by points in descending order. -/
def SortedDesc (l : List RenderRecord) : Prop :=
  l.Pairwise (fun a b => b.points ≤ a.points)

theorem insertDesc_perm (x : RenderRecord) (l : List RenderRecord) :
    (insertDesc x l).Perm (x :: l) := by
  induction l with
  | nil => simp [insertDesc]
  | cons y ys ih =>
    by_cases h : y.points ≤ x.points
    · simp [insertDesc, h]
    · simp only [insertDesc, if_neg h]
      exact (ih.cons y).trans (List.Perm.swap x y ys)

theorem sortPlayers_perm (l : List RenderRecord) : (sortPlayers l).Perm l := by
  induction l with
  | nil => simp [sortPlayers]
  | cons x xs ih =>
    have h1 : sortPlayers (x :: xs) = insertDesc x (sortPlayers xs) := rfl
    rw [h1]
    exact (insertDesc_perm x (sortPlayers xs)).trans (ih.cons x)

theorem insertDesc_sorted (x : RenderRecord) {l : List RenderRecord}
    (h : SortedDesc l) : SortedDesc (insertDesc x l) := by
  induction l with
  | nil => simp [insertDesc, SortedDesc]
  | cons y ys ih =>
    rcases List.pairwise_cons.mp h with ⟨hy, hys⟩
    by_cases hc : y.points ≤ x.points
    · rw [insertDesc, if_pos hc]
      refine List.pairwise_cons.mpr ⟨?_, h⟩
      intro z hz
      rcases List.mem_cons.mp hz with rfl | hz'
      · exact hc
      · exact le_trans (hy z hz') hc
    · rw [insertDesc, if_neg hc]
      refine List.pairwise_cons.mpr ⟨?_, ih hys⟩
      intro z hz
      have hz' : z ∈ x :: ys := (insertDesc_perm x ys).mem_iff.mp hz
      rcases List.mem_cons.mp hz' with rfl | hz''
      · exact le_of_lt (lt_of_not_le hc)
      · exact hy z hz''

theorem sortPlayers_sorted (l : List RenderRecord) : SortedDesc (sortPlayers l) := by
  induction l with
  | nil => simp [sortPlayers, SortedDesc]
  | cons x xs ih => exact insertDesc_sorted x ih

theorem insertDesc_filter (x : RenderRecord) (l : List RenderRecord) (k : Nat) :
    (insertDesc x l).filter (fun r => decide (r.points = k)) =
      if x.points = k then x :: l.filter (fun r => decide (r.points = k))
      else l.filter (fun r => decide (r.points = k)) := by
  induction l with
  | nil =>
    by_cases hx : x.points = k <;> simp [insertDesc, List.filter, hx]
  | cons y ys ih =>
    by_cases hc : y.points ≤ x.points
    · rw [insertDesc, if_pos hc]
      by_cases hx : x.points = k <;> simp [List.filter_cons, hx]
    · rw [insertDesc, if_neg hc]
      by_cases hx : x.points = k
      · have hy : ¬(y.points = k) := by
          intro hy
          exact hc (le_of_eq (hy.trans hx.symm))
        simp [List.filter_cons, hx, hy, ih]
      · by_cases hy : y.points = k <;> simp [List.filter_cons, hx, hy, ih]

theorem sortPlayers_filter (l : List RenderRecord) (k : Nat) :
    (sortPlayers l).filter (fun r => decide (r.points = k)) =
      l.filter (fun r => decide (r.points = k)) := by
  induction l with
  | nil => rfl
  | cons x xs ih =>
    have h1 : sortPlayers (x :: xs) = insertDesc x (sortPlayers xs) := rfl
    rw [h1, insertDesc_filter]
    by_cases hx : x.points = k <;> simp [List.filter_cons, hx, ih]

/-! ## Lemmas about rank assignment -/

theorem addRanks_length (n : Nat) (l : List RenderRecord) :
    (addRanks n l).length = l.length := by
  induction l generalizing n with
  | nil => rfl
  | cons x xs ih => simp [addRanks, ih]

theorem addRanks_map_fst (n : Nat) (l : List RenderRecord) :
    (addRanks n l).map Prod.fst = List.range' n l.length := by
  induction l generalizing n with
  | nil => rfl
  | cons x xs ih => simp [addRanks, List.range', ih]

theorem addRanks_map_snd (n : Nat) (l : List RenderRecord) :
    (addRanks n l).map Prod.snd = l := by
  induction l generalizing n with
  | nil => rfl
  | cons x xs ih => simp [addRanks, ih]

/-! ## Claim theorems -/

/-- C4: for every roster, the sequence of render records produced by
`compose` is sorted by points in descending order, and the sort is stable:
for every points value, the equal-points records of the sorted sequence are
exactly the equal-points records of the pre-sort combination order
(`allPlayers`: teams enumerated red, blue, green, yellow, then per-team row
order), in the same relative order. -/
theorem compose_sorted_and_stable (r : Roster) :
    ((compose r).map (fun e => e.2.points)).Pairwise (fun a b => b ≤ a) ∧
    ∀ k : Nat,
      (sortPlayers (allPlayers r)).filter (fun x => decide (x.points = k)) =
        (allPlayers r).filter (fun x => decide (x.points = k)) := by
  constructor
  · have hs := sortPlayers_sorted (allPlayers r)
    have ht : SortedDesc ((sortPlayers (allPlayers r)).take MAX_RECORDS) :=
      List.Pairwise.sublist (List.take_sublist _ _) hs
    have hmap : (compose r).map (fun e => e.2.points) =
        ((sortPlayers (allPlayers r)).take MAX_RECORDS).map (fun x => x.points) := by
      rw [← addRanks_map_snd 1 ((sortPlayers (allPlayers r)).take MAX_RECORDS),
        List.map_map]
      rfl
    rw [hmap, List.pairwise_map]
    exact ht
  · intro k
    exact sortPlayers_filter (allPlayers r) k

/-- C5: for every roster, `compose` produces exactly
`min (totalPlayers, 16)` records (records beyond the fixed maximum 16 are
dropped), and the rank positions of the retained records are exactly
`1..length` in order, assigned after the sort. -/
theorem compose_length_and_ranks (r : Roster) :
    (compose r).length = min ((allPlayers r).length) MAX_RECORDS ∧
    (compose r).map Prod.fst = List.range' 1 ((compose r).length) := by
  have hlen : (compose r).length =
      ((sortPlayers (allPlayers r)).take MAX_RECORDS).length := addRanks_length 1 _
  constructor
  · rw [hlen, List.length_take, (sortPlayers_perm (allPlayers r)).length_eq]
    omega
  · rw [hlen]
    exact addRanks_map_fst 1 _

theorem lookupLB_none (lb : List LBEntry) (key : String)
    (h : ∀ e ∈ lb, pyLower e.combatant ≠ key) : lookupLB lb key = none := by
  have hgen : ∀ acc : Option LBInfo,
      lb.foldl
        (fun acc e =>
          if pyLower e.combatant = key then some ⟨e.position, pyLower e.team, e.points⟩ else acc)
        acc = acc := by
    induction lb with
    | nil => intro acc; rfl
    | cons e es ih =>
      intro acc
      have he : ¬(pyLower e.combatant = key) := h e (List.mem_cons_self e es)
      have ih' := ih (fun x hx => h x (List.mem_cons_of_mem e hx))
      simp [List.foldl_cons, if_neg he, ih']
  exact hgen none

/-- C6: name-to-points resolution in `compose` is case-insensitive — the
roster whose leaderboard holds combatant "Ann" with 42 points and whose red
team holds a player named "ANN" composes to exactly one record, for that
player, with 42 points — and every player whose lower-cased name matches no
leaderboard combatant resolves to 0 points. -/
theorem points_case_insensitive :
    compose rosterAnn =
      [(1, { name := "ANN", team := "red", roll := "", status := "", points := 42, coins := "0" })] ∧
    ∀ (lb : List LBEntry) (p : PlayerRecord),
      (∀ e ∈ lb, pyLower e.combatant ≠ pyLower p.name) →
      (toRender lb p).points = 0 := by
  refine ⟨by decide, ?_⟩
  intro lb p h
  simp [toRender, resolvePoints, lookupLB_none lb (pyLower p.name) h]

/-- Closed witness for C6: a player whose lower-cased name matches no
leaderboard combatant gets 0 points. -/
theorem points_case_insensitive_witness :
    (toRender [{ position := "1", team := "red", combatant := "Bob", points := 9 }]
      { name := "ANN", team := "red", roll := "", coins := "0", status := "" }).points = 0 :=
  points_case_insensitive.2 _ _ (by decide)

/-- C7: roll-range parsing — the stored text "50-75" yields exactly
`(50, 75)`; "bogus" and the empty string yield the default `(100, 200)`; in
general the text is split on "-" and anything but exactly two
integer-parseable pieces yields the default range. -/
theorem roll_range_parsing :
    parseRollRange "50-75" = (50, 75) ∧
    parseRollRange "bogus" = (100, 200) ∧
    parseRollRange "" = (100, 200) ∧
    ∀ s : String,
      (∃ a b : Int, (pySplit s '-').map pyInt? = [some a, some b] ∧ parseRollRange s = (a, b)) ∨
      parseRollRange s = DEFAULT_ROLL_RANGE := by
  refine ⟨by decide, by decide, by decide, ?_⟩
  intro s
  rcases hsplit : (pySplit s '-').map pyInt? with _ | ⟨o1, rest1⟩
  · right; simp [parseRollRange, hsplit]
  · rcases rest1 with _ | ⟨o2, rest2⟩
    · right
      rcases o1 with _ | a <;> simp [parseRollRange, hsplit]
    · rcases rest2 with _ | ⟨o3, rest3⟩
      · rcases o1 with _ | a
        · right; simp [parseRollRange, hsplit]
        · rcases o2 with _ | b
          · right; simp [parseRollRange, hsplit]
          · exact Or.inl ⟨a, b, rfl, by simp [parseRollRange, hsplit]⟩
      · right
        rcases o1 with _ | a <;> rcases o2 with _ | b <;> simp [parseRollRange, hsplit]

/-- C1 counterexample: in the scenario with the marker split over two cells,
the first cell "RED TEAM" lacks the substring "blue", so no team-pair
section starts; the marker row is skipped as a header, Alice's data row is
dropped (no section active), the red-team list is empty rather than
containing Alice, and composing yields no render record at all. -/
theorem scenario_pair_marker_cex :
    (parseSheetData scenarioRowsPair).red_team = [] ∧
    (parseSheetData scenarioRowsPair).leaderboard =
      [{ position := "1", team := "red", combatant := "Alice", points := 30 }] ∧
    compose (parseSheetData scenarioRowsPair) = [] := by
  refine ⟨by decide, by decide, by decide⟩

/-- C1 amended: with both team substrings in the marker's first cell, the
scenario parses as claimed — red team exactly Alice's record, leaderboard
exactly the one entry — and composing yields exactly one render record for
Alice with 30 points and rank position 1. -/
theorem scenario_single_marker :
    parseSheetData scenarioRowsSingle =
      { red_team := [{ name := "Alice", team := "red", roll := "10-20", coins := "5", status := "" }]
        blue_team := []
        green_team := []
        yellow_team := []
        leaderboard := [{ position := "1", team := "red", combatant := "Alice", points := 30 }] } ∧
    compose (parseSheetData scenarioRowsSingle) =
      [(1, { name := "Alice", team := "red", roll := "10-20", status := "", points := 30, coins := "5" })] := by
  refine ⟨by decide, by decide⟩

/-- C2 counterexample: in `old.py`'s parse, a data row of the red/blue
section whose team cell is "green" is appended to the green-team list — not
excluded from all four team lists. -/
theorem foreign_team_old_cex :
    (([["red & blue"]] : List (List String)).foldl parseStepOld ParseState.init).currentSection =
      some SectionTag.redBlue ∧
    (parseDataOld [["red & blue"], ["Bob", "green", "1-2"]]).green_team =
      [{ name := "Bob", team := "green", roll := "1-2", coins := "0", status := "" }] := by
  refine ⟨by decide, by decide⟩

/-- C2 amended (holds for `script.py`'s `parse_sheet_data`): a non-marker,
non-header row processed while the current section is a team-pair block
whose team cell is not one of that pair's two teams leaves the parse state
completely unchanged — in particular the row enters none of the four team
lists.  (`old.py`'s `parse_data` instead accepts any of the four team names
and appends the row to that team's list.) -/
theorem foreign_team_excluded (st : ParseState) (row : List String)
    (hm : isMarker row = false) (hh : isHeader row = false) :
    (st.currentSection = some SectionTag.redBlue →
      pyStrip (pyLower (cell row 1)) ≠ "red" → pyStrip (pyLower (cell row 1)) ≠ "blue" →
      parseStep st row = st) ∧
    (st.currentSection = some SectionTag.greenYellow →
      pyStrip (pyLower (cell row 1)) ≠ "green" → pyStrip (pyLower (cell row 1)) ≠ "yellow" →
      parseStep st row = st) := by
  rw [isMarker, Bool.or_eq_false_iff, Bool.or_eq_false_iff] at hm
  obtain ⟨⟨hb1, hb2⟩, hb3⟩ := hm
  have hh' : (containsSub "team" (firstCell row) || containsSub "position" (firstCell row) ||
      containsSub "name" (firstCell row)) = false := hh
  constructor <;> intro hs h1 h2 <;>
    by_cases he : row.isEmpty <;>
    by_cases h3 : row.length ≥ 3 <;>
    simp [parseStep, he, hb1, hb2, hb3, hh', hs, h3, h1, h2]

/-- Closed witness for C2 amended: a "green" row inside the red/blue section
leaves the state unchanged in `script.py`'s parse. -/
theorem foreign_team_excluded_witness :
    parseStep ⟨Roster.empty, some SectionTag.redBlue⟩ ["Bob", "green", "1-2"] =
      ⟨Roster.empty, some SectionTag.redBlue⟩ :=
  (foreign_team_excluded ⟨Roster.empty, some SectionTag.redBlue⟩ ["Bob", "green", "1-2"]
    (by decide) (by decide)).1 rfl (by decide) (by decide)

/-- C10: any row whose trimmed lower-cased first cell contains "team",
"position" or "name" as a substring without being a section marker is
skipped as a header by both parse loops: no record is produced and the
current section is unchanged — including a genuine player data row for a
player whose name contains such a substring (see the witness, a player named
"Teamster"). -/
theorem header_like_row_skipped (st : ParseState) (row : List String)
    (_hne : row ≠ []) (hm : isMarker row = false) (hh : isHeader row = true) :
    parseStep st row = st ∧ parseStepOld st row = st := by
  rw [isMarker, Bool.or_eq_false_iff, Bool.or_eq_false_iff] at hm
  obtain ⟨⟨hb1, hb2⟩, hb3⟩ := hm
  have hh' : (containsSub "team" (firstCell row) || containsSub "position" (firstCell row) ||
      containsSub "name" (firstCell row)) = true := hh
  constructor <;> simp [parseStep, parseStepOld, hb1, hb2, hb3, hh']

/-- Closed witness for C10: the data row of a player named "Teamster" inside
the red/blue section is silently dropped by `script.py`'s parse. -/
theorem header_like_row_skipped_witness :
    parseStep ⟨Roster.empty, some SectionTag.redBlue⟩ ["Teamster", "red", "10-20"] =
      ⟨Roster.empty, some SectionTag.redBlue⟩ :=
  (header_like_row_skipped ⟨Roster.empty, some SectionTag.redBlue⟩ ["Teamster", "red", "10-20"]
    (by decide) (by decide) (by decide)).1


theorem cellE_ok {row : List String} {i : Nat} (h : i < row.length) :
    cellE row i = Except.ok (cell row i) := by
  simp [cellE, h, cell]

theorem exBind_ok {α β : Type} (a : α) (f : α → Except String β) :
    (Except.ok a >>= f : Except String β) = f a := rfl

theorem pyInt_of_isdigit {s : String} (h : isdigitB (pyStrip s) = true) :
    pyInt? s = some ((digitsVal (pyStrip s) : Nat) : Int) := by
  rw [isdigitB, Bool.and_eq_true] at h
  obtain ⟨hne, hall⟩ := h
  rcases hl : (pyStrip s).toList with _ | ⟨c, cs⟩
  · rw [hl] at hne
    simp at hne
  · rw [hl] at hall
    have hc : c.isDigit = true := by
      simpa using List.all_eq_true.mp hall c (List.mem_cons_self c cs)
    have hnd : ¬(c = '-') := by
      intro hEq
      rw [hEq] at hc
      exact absurd hc (by decide)
    have hnp : ¬(c = '+') := by
      intro hEq
      rw [hEq] at hc
      exact absurd hc (by decide)
    have hl' : (pyStrip s).data = c :: cs := hl
    simp [pyInt?, String.toList, hl', hnd, hnp, hc, hall, digitsVal, digitsVal?,
      Option.map, Option.bind, pure]

theorem pyIntE_of_isdigit {s : String} (h : isdigitB (pyStrip s) = true) :
    pyIntE s = Except.ok ((digitsVal (pyStrip s) : Nat) : Int) := by
  simp only [pyIntE, pyInt_of_isdigit h]

set_option maxRecDepth 2048 in
theorem parseStepE_ok (st : ParseState) (row : List String) :
    parseStepE st row = Except.ok (parseStep st row) := by
  by_cases he : row.isEmpty
  · simp [parseStepE, parseStep, he]
  · have hne : row ≠ [] := by
      cases row with
      | nil => simp at he
      | cons a l => exact List.cons_ne_nil a l
    have h0 : 0 < row.length := List.length_pos.mpr hne
    by_cases hb1 : containsSub "red" (pyLower (pyStrip (cell row 0))) = true ∧
        containsSub "blue" (pyLower (pyStrip (cell row 0))) = true
    · simp [parseStepE, parseStep, he, cellE_ok h0, firstCell, hb1.1, hb1.2,
        pure, Except.pure, exBind_ok]
    by_cases hb2 : containsSub "green" (pyLower (pyStrip (cell row 0))) = true ∧
        containsSub "yellow" (pyLower (pyStrip (cell row 0))) = true
    · simp [parseStepE, parseStep, he, cellE_ok h0, firstCell, hb1, hb2.1, hb2.2,
        pure, Except.pure, exBind_ok]
    by_cases hb3 : containsSub "leaderboard" (pyLower (pyStrip (cell row 0))) = true
    · simp [parseStepE, parseStep, he, cellE_ok h0, firstCell, hb1, hb2, hb3,
        pure, Except.pure, exBind_ok]
    by_cases hb4 : (containsSub "team" (pyLower (pyStrip (cell row 0))) = true ∨
        containsSub "position" (pyLower (pyStrip (cell row 0))) = true) ∨
        containsSub "name" (pyLower (pyStrip (cell row 0))) = true
    · simp [parseStepE, parseStep, he, cellE_ok h0, firstCell, hb1, hb2, hb3, hb4,
        pure, Except.pure, exBind_ok]
    rcases st with ⟨data, sec⟩
    rcases sec with _ | tag
    · simp [parseStepE, parseStep, he, cellE_ok h0, firstCell, hb1, hb2, hb3, hb4,
        pure, Except.pure, exBind_ok]
    rcases tag with _ | _ | _
    · by_cases h3 : row.length ≥ 3
      · have h2 : row.length > 2 := h3
        have h1 : 1 < row.length := by omega
        by_cases h4 : row.length > 3
        · by_cases h5 : row.length > 4
          · by_cases ht1 : pyStrip (pyLower (cell row 1)) = "red"
            · simp [parseStepE, parseStep, he, cellE_ok h0, cellE_ok h1, cellE_ok h2,
              firstCell, hb1, hb2, hb3, hb4, h1, h2, h3, mkPlayer, pure, Except.pure, exBind_ok, cellE_ok h4, h4, cellE_ok h5, h5, ht1]
            · by_cases ht2 : pyStrip (pyLower (cell row 1)) = "blue"
              · simp [parseStepE, parseStep, he, cellE_ok h0, cellE_ok h1, cellE_ok h2,
              firstCell, hb1, hb2, hb3, hb4, h1, h2, h3, mkPlayer, pure, Except.pure, exBind_ok, cellE_ok h4, h4, cellE_ok h5, h5, ht1, ht2]
              · simp [parseStepE, parseStep, he, cellE_ok h0, cellE_ok h1, cellE_ok h2,
              firstCell, hb1, hb2, hb3, hb4, h1, h2, h3, mkPlayer, pure, Except.pure, exBind_ok, cellE_ok h4, h4, cellE_ok h5, h5, ht1, ht2]
          · by_cases ht1 : pyStrip (pyLower (cell row 1)) = "red"
            · simp [parseStepE, parseStep, he, cellE_ok h0, cellE_ok h1, cellE_ok h2,
              firstCell, hb1, hb2, hb3, hb4, h1, h2, h3, mkPlayer, pure, Except.pure, exBind_ok, cellE_ok h4, h4, h5, ht1]
            · by_cases ht2 : pyStrip (pyLower (cell row 1)) = "blue"
              · simp [parseStepE, parseStep, he, cellE_ok h0, cellE_ok h1, cellE_ok h2,
              firstCell, hb1, hb2, hb3, hb4, h1, h2, h3, mkPlayer, pure, Except.pure, exBind_ok, cellE_ok h4, h4, h5, ht1, ht2]
              · simp [parseStepE, parseStep, he, cellE_ok h0, cellE_ok h1, cellE_ok h2,
              firstCell, hb1, hb2, hb3, hb4, h1, h2, h3, mkPlayer, pure, Except.pure, exBind_ok, cellE_ok h4, h4, h5, ht1, ht2]
        · have h5 : ¬(row.length > 4) := by omega
          by_cases ht1 : pyStrip (pyLower (cell row 1)) = "red"
          · simp [parseStepE, parseStep, he, cellE_ok h0, cellE_ok h1, cellE_ok h2,
              firstCell, hb1, hb2, hb3, hb4, h1, h2, h3, mkPlayer, pure, Except.pure, exBind_ok, h4, h5, ht1]
          · by_cases ht2 : pyStrip (pyLower (cell row 1)) = "blue"
            · simp [parseStepE, parseStep, he, cellE_ok h0, cellE_ok h1, cellE_ok h2,
              firstCell, hb1, hb2, hb3, hb4, h1, h2, h3, mkPlayer, pure, Except.pure, exBind_ok, h4, h5, ht1, ht2]
            · simp [parseStepE, parseStep, he, cellE_ok h0, cellE_ok h1, cellE_ok h2,
              firstCell, hb1, hb2, hb3, hb4, h1, h2, h3, mkPlayer, pure, Except.pure, exBind_ok, h4, h5, ht1, ht2]
      · simp [parseStepE, parseStep, he, cellE_ok h0, firstCell, hb1, hb2, hb3, hb4, h3,
          pure, Except.pure, exBind_ok]
    · by_cases h3 : row.length ≥ 3
      · have h2 : row.length > 2 := h3
        have h1 : 1 < row.length := by omega
        by_cases h4 : row.length > 3
        · by_cases h5 : row.length > 4
          · by_cases ht1 : pyStrip (pyLower (cell row 1)) = "green"
            · simp [parseStepE, parseStep, he, cellE_ok h0, cellE_ok h1, cellE_ok h2,
              firstCell, hb1, hb2, hb3, hb4, h1, h2, h3, mkPlayer, pure, Except.pure, exBind_ok, cellE_ok h4, h4, cellE_ok h5, h5, ht1]
            · by_cases ht2 : pyStrip (pyLower (cell row 1)) = "yellow"
              · simp [parseStepE, parseStep, he, cellE_ok h0, cellE_ok h1, cellE_ok h2,
              firstCell, hb1, hb2, hb3, hb4, h1, h2, h3, mkPlayer, pure, Except.pure, exBind_ok, cellE_ok h4, h4, cellE_ok h5, h5, ht1, ht2]
              · simp [parseStepE, parseStep, he, cellE_ok h0, cellE_ok h1, cellE_ok h2,
              firstCell, hb1, hb2, hb3, hb4, h1, h2, h3, mkPlayer, pure, Except.pure, exBind_ok, cellE_ok h4, h4, cellE_ok h5, h5, ht1, ht2]
          · by_cases ht1 : pyStrip (pyLower (cell row 1)) = "green"
            · simp [parseStepE, parseStep, he, cellE_ok h0, cellE_ok h1, cellE_ok h2,
              firstCell, hb1, hb2, hb3, hb4, h1, h2, h3, mkPlayer, pure, Except.pure, exBind_ok, cellE_ok h4, h4, h5, ht1]
            · by_cases ht2 : pyStrip (pyLower (cell row 1)) = "yellow"
              · simp [parseStepE, parseStep, he, cellE_ok h0, cellE_ok h1, cellE_ok h2,
              firstCell, hb1, hb2, hb3, hb4, h1, h2, h3, mkPlayer, pure, Except.pure, exBind_ok, cellE_ok h4, h4, h5, ht1, ht2]
              · simp [parseStepE, parseStep, he, cellE_ok h0, cellE_ok h1, cellE_ok h2,
              firstCell, hb1, hb2, hb3, hb4, h1, h2, h3, mkPlayer, pure, Except.pure, exBind_ok, cellE_ok h4, h4, h5, ht1, ht2]
        · have h5 : ¬(row.length > 4) := by omega
          by_cases ht1 : pyStrip (pyLower (cell row 1)) = "green"
          · simp [parseStepE, parseStep, he, cellE_ok h0, cellE_ok h1, cellE_ok h2,
              firstCell, hb1, hb2, hb3, hb4, h1, h2, h3, mkPlayer, pure, Except.pure, exBind_ok, h4, h5, ht1]
          · by_cases ht2 : pyStrip (pyLower (cell row 1)) = "yellow"
            · simp [parseStepE, parseStep, he, cellE_ok h0, cellE_ok h1, cellE_ok h2,
              firstCell, hb1, hb2, hb3, hb4, h1, h2, h3, mkPlayer, pure, Except.pure, exBind_ok, h4, h5, ht1, ht2]
            · simp [parseStepE, parseStep, he, cellE_ok h0, cellE_ok h1, cellE_ok h2,
              firstCell, hb1, hb2, hb3, hb4, h1, h2, h3, mkPlayer, pure, Except.pure, exBind_ok, h4, h5, ht1, ht2]
      · simp [parseStepE, parseStep, he, cellE_ok h0, firstCell, hb1, hb2, hb3, hb4, h3,
          pure, Except.pure, exBind_ok]
    · by_cases h3 : row.length ≥ 4
      · have h1 : 1 < row.length := by omega
        have h2 : 2 < row.length := by omega
        have h4 : 3 < row.length := h3
        by_cases hd : isdigitB (pyStrip (cell row 3)) = true
        · simp [parseStepE, parseStep, he, cellE_ok h0, cellE_ok h1, cellE_ok h2,
            cellE_ok h4, firstCell, hb1, hb2, hb3, hb4, h1, h2, h3, h4, hd,
            mkLBEntry, pyIntE_of_isdigit hd, pure, Except.pure, exBind_ok]
        · simp [parseStepE, parseStep, he, cellE_ok h0, cellE_ok h1, cellE_ok h2,
            cellE_ok h4, firstCell, hb1, hb2, hb3, hb4, h1, h2, h3, h4, hd,
            mkLBEntry, pure, Except.pure, exBind_ok]
      · simp [parseStepE, parseStep, he, cellE_ok h0, firstCell, hb1, hb2, hb3, hb4, h3,
          pure, Except.pure, exBind_ok]



theorem parse_never_raises_aux (rows : List (List String)) :
    ∀ st : ParseState, rows.foldlM parseStepE st = Except.ok (rows.foldl parseStep st) := by
  induction rows with
  | nil => intro st; rfl
  | cons r rs ih =>
    intro st
    simp [List.foldlM, parseStepE_ok st r, exBind_ok, ih, List.foldl_cons]

/-- C8: for every input row sequence — empty rows, short rows and
non-numeric points cells included — the exception-instrumented parse loop
returns `ok` of the plain parse result: it terminates and no modelled
exception (IndexError from a subscript, ValueError from `int`) escapes, so
malformed and short rows are silently dropped rather than reported. -/
theorem parse_never_raises (rows : List (List String)) :
    parseSheetDataE rows = Except.ok (parseSheetData rows) := by
  simp [parseSheetDataE, parseSheetData, parse_never_raises_aux rows ParseState.init, Except.map]

theorem perm_two {α : Type} {l : List α} {x y : α} (h : l.Perm [x, y]) :
    l = [x, y] ∨ l = [y, x] := by
  rcases l with _ | ⟨a, l2⟩
  · exact absurd h.length_eq (by simp)
  rcases l2 with _ | ⟨b, l3⟩
  · exact absurd h.length_eq (by simp)
  rcases l3 with _ | ⟨c, l4⟩
  · have ha' : a = x ∨ a = y := by simpa using h.subset (by simp)
    have hb' : b = x ∨ b = y := by simpa using h.subset (by simp : b ∈ [a, b])
    rcases ha' with ha | ha
    · rcases hb' with hb | hb
      · have hy : y ∈ [a, b] := h.mem_iff.mpr (by simp)
        rw [ha, hb] at hy
        have hyx : y = x := by simpa using hy
        exact Or.inl (by rw [ha, hb, hyx])
      · exact Or.inl (by rw [ha, hb])
    · rcases hb' with hb | hb
      · exact Or.inr (by rw [ha, hb])
      · have hx : x ∈ [a, b] := h.mem_iff.mpr (by simp)
        rw [ha, hb] at hx
        have hxy : x = y := by simpa using hx
        exact Or.inr (by rw [ha, hb, hxy])
  · exact absurd h.length_eq (by simp)

/-- C3 amended: every restricted command of `old.py` — update, ping, round,
showsubmitted, showanswers — performs the role check before any side
effect: invoked by a user without the "Agent of Chaos" role it emits exactly
the rejection reply and leaves the bot state unchanged.  (`script.py`'s
`update` performs no authorization check at all; see the counterexample.) -/
theorem restricted_commands_reject (env : Env) (u : User) (s : BotState) (n : Int)
    (h : hasPermission u = false) :
    updateCommandOld env u s = (s, [Effect.reply true RESTRICTED_MSG]) ∧
    pingOld u s = (s, [Effect.reply true RESTRICTED_MSG]) ∧
    roundCommandOld env u s n = (s, [Effect.reply true RESTRICTED_MSG]) ∧
    showSubmittedOld env u s = (s, [Effect.reply true RESTRICTED_MSG]) ∧
    showAnonOld env u s = (s, [Effect.reply true RESTRICTED_MSG]) := by
  simp [updateCommandOld, pingOld, roundCommandOld, showSubmittedOld, showAnonOld, h]

/-- Closed witness for C3 amended: a role-less user is rejected with no
state change by each restricted command of `old.py`. -/
theorem restricted_commands_reject_witness :
    updateCommandOld envDefault noRoleUser stateEmpty =
      (stateEmpty, [Effect.reply true RESTRICTED_MSG]) ∧
    pingOld noRoleUser stateEmpty = (stateEmpty, [Effect.reply true RESTRICTED_MSG]) ∧
    roundCommandOld envDefault noRoleUser stateEmpty 2 =
      (stateEmpty, [Effect.reply true RESTRICTED_MSG]) ∧
    showSubmittedOld envDefault noRoleUser stateEmpty =
      (stateEmpty, [Effect.reply true RESTRICTED_MSG]) ∧
    showAnonOld envDefault noRoleUser stateEmpty =
      (stateEmpty, [Effect.reply true RESTRICTED_MSG]) :=
  restricted_commands_reject envDefault noRoleUser stateEmpty 2 (by decide)

/-- C3 counterexample: `script.py`'s `update` command has no authorization
check — invoked by a role-less user (with unset message/channel ids) it
defers, posts a new message, persists the new ids and mutates the bot state,
and never emits the rejection reply. -/
theorem update_script_unrestricted_cex :
    hasPermission noRoleUser = false ∧
    (updateCommandScript envDefault noRoleUser stateEmpty).1 ≠ stateEmpty ∧
    (updateCommandScript envDefault noRoleUser stateEmpty).2 =
      [Effect.deferReply true, Effect.postImage 5, Effect.configUpdate 99 5,
       Effect.followup true "Created new stats board!"] := by
  refine ⟨by decide, by decide, by decide⟩

/-- C9: invoking `showanswers` with pending submissions
{user 1 ↦ "hi", user 2 ↦ "bye"}, for any shuffle of the store: the public
output numbers the two messages 1 and 2 in shuffled order, the separately
delivered private mapping pairs each number with the submitting user of
exactly that message, the submission store is empty afterwards, and a
subsequent `showsubmitted` reports that there are no submissions. -/
theorem showanswers_reveal_and_clear (env : Env) (u : User)
    (hu : hasPermission u = true)
    (hperm : (env.shuffle [(1, "hi"), (2, "bye")]).Perm [(1, "hi"), (2, "bye")]) :
    (showAnonOld env u stateTwoSubs).1.submissions = [] ∧
    (showAnonOld env u stateTwoSubs).2 =
      [Effect.reply false (publicMsg (env.shuffle [(1, "hi"), (2, "bye")])),
       Effect.followup true (adminMsg env (env.shuffle [(1, "hi"), (2, "bye")]))] ∧
    (publicPairs (env.shuffle [(1, "hi"), (2, "bye")])).map Prod.fst = [1, 2] ∧
    ((publicPairs (env.shuffle [(1, "hi"), (2, "bye")])).map Prod.snd).Perm ["hi", "bye"] ∧
    (∀ i uid msg, (i, uid, msg) ∈ adminPairs (env.shuffle [(1, "hi"), (2, "bye")]) →
      (i, msg) ∈ publicPairs (env.shuffle [(1, "hi"), (2, "bye")]) ∧
      (uid, msg) ∈ [(1, "hi"), (2, "bye")]) ∧
    (showSubmittedOld env u (showAnonOld env u stateTwoSubs).1).2 =
      [Effect.reply true "No submissions yet!"] := by
  rcases perm_two hperm with hcase | hcase <;>
    refine ⟨by simp [showAnonOld, hu, stateTwoSubs],
      by simp [showAnonOld, hu, stateTwoSubs],
      by rw [hcase]; decide,
      by rw [hcase]; decide,
      ?_,
      by simp [showAnonOld, showSubmittedOld, hu, stateTwoSubs]⟩ <;>
  · rw [hcase]
    intro i uid msg hmem
    simp [adminPairs, List.enum, List.enumFrom] at hmem
    rcases hmem with ⟨rfl, rfl, rfl⟩ | ⟨rfl, rfl, rfl⟩ <;> decide

/-- Closed witness for C9: the identity shuffle instance. -/
theorem showanswers_reveal_and_clear_witness :
    (showAnonOld envDefault agentUser stateTwoSubs).1.submissions = [] ∧
    (showAnonOld envDefault agentUser stateTwoSubs).2 =
      [Effect.reply false (publicMsg (envDefault.shuffle [(1, "hi"), (2, "bye")])),
       Effect.followup true (adminMsg envDefault (envDefault.shuffle [(1, "hi"), (2, "bye")]))] ∧
    (publicPairs (envDefault.shuffle [(1, "hi"), (2, "bye")])).map Prod.fst = [1, 2] ∧
    ((publicPairs (envDefault.shuffle [(1, "hi"), (2, "bye")])).map Prod.snd).Perm ["hi", "bye"] ∧
    (∀ i uid msg, (i, uid, msg) ∈ adminPairs (envDefault.shuffle [(1, "hi"), (2, "bye")]) →
      (i, msg) ∈ publicPairs (envDefault.shuffle [(1, "hi"), (2, "bye")]) ∧
      (uid, msg) ∈ [(1, "hi"), (2, "bye")]) ∧
    (showSubmittedOld envDefault agentUser (showAnonOld envDefault agentUser stateTwoSubs).1).2 =
      [Effect.reply true "No submissions yet!"] :=
  showanswers_reveal_and_clear envDefault agentUser (by decide) (by decide)

end Gauntlet
